import Mathlib

/-!
Verification of the MCP session-manager and resilient tool-call dispatcher of
this repository.

The embedding covers two source files:

* `src/app/mcp/mcp_utils.py` — `handle_mcp_tool_call`, the retry-on-closed
  dispatcher for MCP tool invocations;
* `src/app/mcp/dependencies.py` — `MCPSessionManager` with its operations
  `initialize`, `reconnect`, `cleanup` and `get_resource`.

Python exceptions are modelled as data (`Exc`); awaited calls whose outcome
is environmental (the tool body, `reconnect()`, the `on_reconnect` hook,
entering the exit stack, closing the exit stack, connecting to an endpoint,
loading its tools) are passed in as explicit outcome parameters, and the
control flow of each function follows the try/except structure of the source
line by line.  Logging calls have no observable effect and are dropped.
-/

namespace MCPSpec

/-- A Python exception value as the dispatcher observes it: whether
`isinstance(e, anyio.ClosedResourceError)` holds, and its `str(e)` text. -/
structure Exc where
  isClosedResourceError : Bool
  msg : String
deriving DecidableEq, Repr

/-- An MCP client session, identified abstractly. -/
abbrev Session := String

/-- A loaded `StructuredTool`, identified abstractly. -/
abbrev Tool := String

/-- `langchain_core.messages.ToolMessage` as the dispatcher constructs it
(fields `content`, `name`, `tool_call_id`). -/
structure ToolMessage where
  content : String
  name : String
  tool_call_id : String
deriving DecidableEq, Repr

/-- Outcome of one `await tool_fn.ainvoke(tool_call["args"])` call: either a
result value, or a raised exception. -/
inductive ToolOutcome where
  | ok (result : String)
  | err (e : Exc)
deriving DecidableEq, Repr

/-- Result of one dispatch, instrumented with how many times the tool body
was invoked and how many times `reconnect()` of the session manager was
called.  `result = none` models the implicit Python `None` return that
happens when the `for attempt in range(max_retries + 1)` loop body never
runs, i.e. when `max_retries` is negative. -/
structure DispatchResult where
  result : Option ToolMessage
  invocations : Nat
  reconnectCalls : Nat
deriving DecidableEq, Repr

/-- The failure text built in `handle_mcp_tool_call`
(src/app/mcp/mcp_utils.py lines 110-112):
`f"[ERROR] Tool \x7btool_name\x7d failed: \x7bstr(tool_error)\x7d"` with the
tool name single-quoted, plus a reconnection note when the exception is a
`ClosedResourceError`. -/
def mkErrorMsg (tool_name : String) (e : Exc) : String :=
  "[ERROR] Tool '" ++ tool_name ++ "' failed: " ++ e.msg ++
    (if e.isClosedResourceError then " (MCP connection issue. Attempted reconnection.)" else "")

/-- The attempt loop of `handle_mcp_tool_call` (src/app/mcp/mcp_utils.py
lines 50-118).  `toolFn k` is the outcome of the k-th invocation of
`tool_fn.ainvoke`; `reconnectEnv k` the outcome of the k-th
`mcp_manager.reconnect()` call (`Except.error` models it raising);
`onReconnect` the optional hook, whose k-th call may also raise.  `fuel` is
the number of loop iterations still to run; the top-level entry point seeds
it with `(max_retries + 1).toNat`, the length of
`range(max_retries + 1)`. -/
def runAttempts (toolFn : Nat → ToolOutcome) (reconnectEnv : Nat → Except Exc Bool)
    (onReconnect : Option (Nat → Except Exc Unit))
    (tool_name tool_call_id : String) (max_retries : Int)
    (attempt invocs recons : Nat) : Nat → DispatchResult
  | 0 => ⟨none, invocs, recons⟩
  | fuel + 1 =>
    match toolFn attempt with
    | .ok r => ⟨some ⟨r, tool_name, tool_call_id⟩, invocs + 1, recons⟩
    | .err e =>
      if e.isClosedResourceError = true ∧ (attempt : Int) < max_retries then
        match reconnectEnv recons with
        | .ok true =>
          match onReconnect with
          | none =>
            runAttempts toolFn reconnectEnv onReconnect tool_name tool_call_id max_retries
              (attempt + 1) (invocs + 1) (recons + 1) fuel
          | some hook =>
            match hook recons with
            | .ok _ =>
              runAttempts toolFn reconnectEnv onReconnect tool_name tool_call_id max_retries
                (attempt + 1) (invocs + 1) (recons + 1) fuel
            | .error _ =>
              ⟨some ⟨mkErrorMsg tool_name e, tool_name, tool_call_id⟩, invocs + 1, recons + 1⟩
        | .ok false =>
          ⟨some ⟨mkErrorMsg tool_name e, tool_name, tool_call_id⟩, invocs + 1, recons + 1⟩
        | .error _ =>
          ⟨some ⟨mkErrorMsg tool_name e, tool_name, tool_call_id⟩, invocs + 1, recons + 1⟩
      else
        ⟨some ⟨mkErrorMsg tool_name e, tool_name, tool_call_id⟩, invocs + 1, recons⟩

/-- `handle_mcp_tool_call` (src/app/mcp/mcp_utils.py lines 12-118), given
that `tool_call` carries an `"id"` key (the id is the `tool_call_id`
argument here; a missing key would raise `KeyError` before the loop). -/
def handle_mcp_tool_call (toolFn : Nat → ToolOutcome)
    (reconnectEnv : Nat → Except Exc Bool) (onReconnect : Option (Nat → Except Exc Unit))
    (tool_name tool_call_id : String) (max_retries : Int) : DispatchResult :=
  runAttempts toolFn reconnectEnv onReconnect tool_name tool_call_id max_retries
    0 0 0 (max_retries + 1).toNat

/-- The `Resource` pydantic model of src/app/mcp/dependencies.py: the merged
tool list and the list of live sessions. -/
structure Resource where
  tools : List Tool
  sessions : List Session
deriving DecidableEq, Repr

/-- What happens for one hostname of `settings.MCP_HOSTNAMES` inside the
connection loop of `MCPSessionManager.initialize`:

* `connectFail`: `enter_async_context(mcp_sse_client(hostname))` raises;
* `loadFail`: the session is entered (so the exit stack holds it) but
  `load_mcp_tools(session)` raises;
* `ok`: both succeed, yielding the session and its tools. -/
inductive EndpointOutcome where
  | connectFail (e : Exc)
  | loadFail (s : Session) (e : Exc)
  | ok (s : Session) (tools : List Tool)
deriving DecidableEq, Repr

/-- Whether the endpoint failed to connect or to load its tools. -/
def EndpointOutcome.failed : EndpointOutcome → Bool
  | .connectFail _ => true
  | .loadFail _ _ => true
  | .ok _ _ => false

/-- The three instance fields of `MCPSessionManager`: `_exit_stack` (modelled
by the list of sessions it has entered), `_resource`, `_initialized`. -/
structure ManagerState where
  exit_stack : Option (List Session)
  resource : Option Resource
  initialized : Bool
deriving DecidableEq, Repr

/-- The state `__init__` produces: everything unset. -/
def initialState : ManagerState := ⟨none, none, false⟩

/-- Reachability invariant of `ManagerState`: whenever the exit stack is
absent, the cached resource is absent and the manager is not marked
initialized.  It holds of `initialState` and is preserved by every
operation. -/
def ManagerState.wf (st : ManagerState) : Prop :=
  st.exit_stack = none → st.resource = none ∧ st.initialized = false

instance (st : ManagerState) : Decidable st.wf := by
  unfold ManagerState.wf; infer_instance

/-- The `for hostname in settings.MCP_HOSTNAMES` loop of
`MCPSessionManager.initialize` (src/app/mcp/dependencies.py lines 92-123),
accumulating `tools`, `sessions` and the exit-stack contents; a failed
endpoint is logged and skipped. -/
def connectLoop : List EndpointOutcome → List Tool → List Session → List Session →
    List Tool × List Session × List Session
  | [], tools, sessions, stack => (tools, sessions, stack)
  | .connectFail _ :: rest, tools, sessions, stack => connectLoop rest tools sessions stack
  | .loadFail s _ :: rest, tools, sessions, stack => connectLoop rest tools sessions (stack ++ [s])
  | .ok s ts :: rest, tools, sessions, stack =>
      connectLoop rest (tools ++ ts) (sessions ++ [s]) (stack ++ [s])

/-- Result of one `initialize()` call: the mutated manager state, the
returned value (or the exception that propagated), and how many endpoint
connection attempts the call performed. -/
structure InitOutcome where
  state : ManagerState
  result : Except Exc (Option Resource)
  connectionAttempts : Nat
deriving Repr

/-- `MCPSessionManager.initialize` (src/app/mcp/dependencies.py lines
78-132).  If already initialized it returns the cached `_resource` at once.
Otherwise it assigns a fresh exit stack and awaits `__aenter__` on it — the
one awaited call of the body that no `try` protects; `enterOutcome` is its
outcome, and when it raises, the exception propagates with `_exit_stack`
already reassigned.  Then the connection loop runs (one attempt per
hostname, failures skipped), the `Resource` is cached and returned. -/
def mgrInit (st : ManagerState) (enterOutcome : Except Exc Unit)
    (outcomes : List EndpointOutcome) : InitOutcome :=
  if st.initialized then ⟨st, .ok st.resource, 0⟩
  else
    match enterOutcome with
    | .error e => ⟨{ st with exit_stack := some [] }, .error e, 0⟩
    | .ok _ =>
      match connectLoop outcomes [] [] [] with
      | (tools, sessions, stack) =>
        ⟨⟨some stack, some ⟨tools, sessions⟩, true⟩, .ok (some ⟨tools, sessions⟩), outcomes.length⟩

/-- `MCPSessionManager.cleanup` (src/app/mcp/dependencies.py lines 147-161).
If an exit stack is held, its `__aexit__` is awaited inside `try/except`
(`aexitOutcome` is its outcome; a raise is caught and logged) and the
`finally` block resets all three fields unconditionally.  With no exit stack
held, the body is skipped. -/
def mgrCleanup (st : ManagerState) (aexitOutcome : Except Exc Unit) : ManagerState :=
  match st.exit_stack with
  | none => st
  | some _ =>
    match aexitOutcome with
    | .ok _ => ⟨none, none, false⟩
    | .error _ => ⟨none, none, false⟩

/-- `MCPSessionManager.reconnect` (src/app/mcp/dependencies.py lines
134-145): `cleanup` then `initialize` inside `try/except`; `true` when both
complete, `false` when an exception was caught. -/
def mgrReconnect (st : ManagerState) (aexitOutcome enterOutcome : Except Exc Unit)
    (outcomes : List EndpointOutcome) : ManagerState × Bool :=
  let st1 := mgrCleanup st aexitOutcome
  let o := mgrInit st1 enterOutcome outcomes
  match o.result with
  | .ok _ => (o.state, true)
  | .error _ => (o.state, false)

/-- The `RuntimeError` text raised by `get_resource`. -/
def notInitializedMsg : String := "MCP session manager not initialized"

/-- `MCPSessionManager.get_resource` (src/app/mcp/dependencies.py lines
163-167): raises unless `_initialized` is set and `_resource` is present. -/
def get_resource (st : ManagerState) : Except String Resource :=
  if st.initialized = false then .error notInitializedMsg
  else
    match st.resource with
    | none => .error notInitializedMsg
    | some r => .ok r

/-- Whether an `Except` outcome is a normal return. -/
def excOk : Except Exc Unit → Bool
  | .ok _ => true
  | .error _ => false

/-! ## Step lemmas for the attempt loop -/

/-- One loop iteration, successful invocation: the success message is
returned at once. -/
theorem runAttempts_ok (f : Nat → ToolOutcome) (g : Nat → Except Exc Bool)
    (hook : Option (Nat → Except Exc Unit)) (nm cid : String) (mr : Int)
    (a i rc n : Nat) (r : String) (hf : f a = ToolOutcome.ok r) :
    runAttempts f g hook nm cid mr a i rc (n + 1) = ⟨some ⟨r, nm, cid⟩, i + 1, rc⟩ := by
  rw [runAttempts, hf]

/-- One loop iteration, failed invocation, no retry possible (either not a
`ClosedResourceError` or no attempts remain): the failure message is
returned without consulting `reconnect()`. -/
theorem runAttempts_err_final (f : Nat → ToolOutcome) (g : Nat → Except Exc Bool)
    (hook : Option (Nat → Except Exc Unit)) (nm cid : String) (mr : Int)
    (a i rc n : Nat) (e : Exc) (hf : f a = ToolOutcome.err e)
    (hc : ¬(e.isClosedResourceError = true ∧ (a : Int) < mr)) :
    runAttempts f g hook nm cid mr a i rc (n + 1) =
      ⟨some ⟨mkErrorMsg nm e, nm, cid⟩, i + 1, rc⟩ := by
  rw [runAttempts, hf]
  dsimp only
  rw [if_neg hc]

/-- One loop iteration, retryable failure, but `reconnect()` returns
false: the failure message is returned with no further invocation. -/
theorem runAttempts_err_reconnect_false (f : Nat → ToolOutcome) (g : Nat → Except Exc Bool)
    (hook : Option (Nat → Except Exc Unit)) (nm cid : String) (mr : Int)
    (a i rc n : Nat) (e : Exc) (hf : f a = ToolOutcome.err e)
    (hc : e.isClosedResourceError = true ∧ (a : Int) < mr) (hg : g rc = Except.ok false) :
    runAttempts f g hook nm cid mr a i rc (n + 1) =
      ⟨some ⟨mkErrorMsg nm e, nm, cid⟩, i + 1, rc + 1⟩ := by
  rw [runAttempts, hf]
  dsimp only
  rw [if_pos hc, hg]

/-- One loop iteration, retryable failure, but `reconnect()` itself raises:
the exception is caught and the failure message is returned. -/
theorem runAttempts_err_reconnect_throws (f : Nat → ToolOutcome) (g : Nat → Except Exc Bool)
    (hook : Option (Nat → Except Exc Unit)) (nm cid : String) (mr : Int)
    (a i rc n : Nat) (e ex : Exc) (hf : f a = ToolOutcome.err e)
    (hc : e.isClosedResourceError = true ∧ (a : Int) < mr) (hg : g rc = Except.error ex) :
    runAttempts f g hook nm cid mr a i rc (n + 1) =
      ⟨some ⟨mkErrorMsg nm e, nm, cid⟩, i + 1, rc + 1⟩ := by
  rw [runAttempts, hf]
  dsimp only
  rw [if_pos hc, hg]

/-- One loop iteration, retryable failure, `reconnect()` returns true with
no hook: the loop continues with the next attempt. -/
theorem runAttempts_err_retry (f : Nat → ToolOutcome) (g : Nat → Except Exc Bool)
    (nm cid : String) (mr : Int) (a i rc n : Nat) (e : Exc)
    (hf : f a = ToolOutcome.err e)
    (hc : e.isClosedResourceError = true ∧ (a : Int) < mr) (hg : g rc = Except.ok true) :
    runAttempts f g none nm cid mr a i rc (n + 1) =
      runAttempts f g none nm cid mr (a + 1) (i + 1) (rc + 1) n := by
  rw [runAttempts, hf]
  dsimp only
  rw [if_pos hc, hg]

/-- One loop iteration, retryable failure, `reconnect()` returns true and
the `on_reconnect` hook succeeds: the loop continues with the next
attempt. -/
theorem runAttempts_err_retry_hook (f : Nat → ToolOutcome) (g : Nat → Except Exc Bool)
    (hk : Nat → Except Exc Unit) (nm cid : String) (mr : Int) (a i rc n : Nat)
    (e : Exc) (u : Unit) (hf : f a = ToolOutcome.err e)
    (hc : e.isClosedResourceError = true ∧ (a : Int) < mr) (hg : g rc = Except.ok true)
    (hhk : hk rc = Except.ok u) :
    runAttempts f g (some hk) nm cid mr a i rc (n + 1) =
      runAttempts f g (some hk) nm cid mr (a + 1) (i + 1) (rc + 1) n := by
  rw [runAttempts, hf]
  dsimp only
  rw [if_pos hc, hg, hhk]

/-- One loop iteration, retryable failure, `reconnect()` returns true but
the `on_reconnect` hook raises: the exception is caught and the failure
message is returned. -/
theorem runAttempts_err_hook_throws (f : Nat → ToolOutcome) (g : Nat → Except Exc Bool)
    (hk : Nat → Except Exc Unit) (nm cid : String) (mr : Int) (a i rc n : Nat)
    (e ex : Exc) (hf : f a = ToolOutcome.err e)
    (hc : e.isClosedResourceError = true ∧ (a : Int) < mr) (hg : g rc = Except.ok true)
    (hhk : hk rc = Except.error ex) :
    runAttempts f g (some hk) nm cid mr a i rc (n + 1) =
      ⟨some ⟨mkErrorMsg nm e, nm, cid⟩, i + 1, rc + 1⟩ := by
  rw [runAttempts, hf]
  dsimp only
  rw [if_pos hc, hg, hhk]

/-! ## Theorems about the dispatcher -/

/-- C1: with `max_retries = 1`, a first invocation that raises
`ClosedResourceError`, a `reconnect()` that returns true (and an absent or
succeeding `on_reconnect` hook), and a second invocation that succeeds with
`r`, `handle_mcp_tool_call` returns the success `ToolMessage` carrying `r`,
the tool name and the call id, and the tool body is invoked exactly
twice. -/
theorem C1_retry_after_reconnect (f : Nat → ToolOutcome) (g : Nat → Except Exc Bool)
    (hook : Option (Nat → Except Exc Unit)) (nm cid : String) (e : Exc) (r : String)
    (hcre : e.isClosedResourceError = true) (h0 : f 0 = .err e) (h1 : f 1 = .ok r)
    (hg : g 0 = .ok true)
    (hhook : hook = none ∨ ∃ hk, hook = some hk ∧ hk 0 = Except.ok ()) :
    handle_mcp_tool_call f g hook nm cid 1 =
      ⟨some ⟨r, nm, cid⟩, 2, 1⟩ := by
  have hc : e.isClosedResourceError = true ∧ ((0 : Nat) : Int) < 1 := ⟨hcre, by norm_num⟩
  rcases hhook with rfl | ⟨hk, rfl, hhk⟩
  · rw [handle_mcp_tool_call, show ((1 : Int) + 1).toNat = 1 + 1 from rfl,
      runAttempts_err_retry f g nm cid 1 0 0 0 1 e h0 hc hg,
      show (1 : Nat) = 0 + 1 from rfl, runAttempts_ok f g none nm cid 1 1 1 1 0 r h1]
  · rw [handle_mcp_tool_call, show ((1 : Int) + 1).toNat = 1 + 1 from rfl, runAttempts, h0]
    dsimp only
    rw [if_pos hc, hg, hhk]
    dsimp only
    rw [show (1 : Nat) = 0 + 1 from rfl, runAttempts_ok f g (some hk) nm cid 1 1 1 1 0 r h1]

/-- C1 witness at a concrete tool, reconnect environment and names. -/
theorem C1_witness :
    handle_mcp_tool_call
      (fun k => if k = 0 then ToolOutcome.err ⟨true, "closed"⟩ else ToolOutcome.ok "r")
      (fun _ => Except.ok true) none "t" "c1" 1 =
      ⟨some ⟨"r", "t", "c1"⟩, 2, 1⟩ :=
  C1_retry_after_reconnect _ _ _ "t" "c1" ⟨true, "closed"⟩ "r" rfl rfl rfl rfl (Or.inl rfl)

/-- C7: with `max_retries = 0`, any raised exception — of any kind,
transport-closed included — yields the failure `ToolMessage` after exactly
one invocation, and `reconnect()` is never called. -/
theorem C7_zero_retries_single_attempt (f : Nat → ToolOutcome) (g : Nat → Except Exc Bool)
    (hook : Option (Nat → Except Exc Unit)) (nm cid : String) (e : Exc)
    (h0 : f 0 = .err e) :
    handle_mcp_tool_call f g hook nm cid 0 =
      ⟨some ⟨mkErrorMsg nm e, nm, cid⟩, 1, 0⟩ := by
  rw [handle_mcp_tool_call, show ((0 : Int) + 1).toNat = 0 + 1 from rfl,
    runAttempts_err_final f g hook nm cid 0 0 0 0 0 e h0 (by simp)]

/-- C7 witness at a concrete transport-closed error. -/
theorem C7_witness :
    handle_mcp_tool_call (fun _ => ToolOutcome.err ⟨true, "x"⟩)
      (fun _ => Except.ok true) none "t" "c" 0 =
      ⟨some ⟨mkErrorMsg "t" ⟨true, "x"⟩, "t", "c"⟩, 1, 0⟩ :=
  C7_zero_retries_single_attempt _ _ _ "t" "c" ⟨true, "x"⟩ rfl

/-- C8: when the first invocation raises `ClosedResourceError`, retries
remain (`1 ≤ max_retries`) and `reconnect()` returns false, the dispatch
returns the failure `ToolMessage` with no second invocation (exactly one
invocation, exactly one reconnect call). -/
theorem C8_reconnect_false_no_retry (f : Nat → ToolOutcome) (g : Nat → Except Exc Bool)
    (hook : Option (Nat → Except Exc Unit)) (nm cid : String) (e : Exc) (mr : Int)
    (hmr : 1 ≤ mr) (hcre : e.isClosedResourceError = true) (h0 : f 0 = .err e)
    (hg : g 0 = .ok false) :
    handle_mcp_tool_call f g hook nm cid mr =
      ⟨some ⟨mkErrorMsg nm e, nm, cid⟩, 1, 1⟩ := by
  obtain ⟨n, hn⟩ : ∃ n, (mr + 1).toNat = n + 1 := ⟨(mr + 1).toNat - 1, by omega⟩
  rw [handle_mcp_tool_call, hn,
    runAttempts_err_reconnect_false f g hook nm cid mr 0 0 0 n e h0 ⟨hcre, by omega⟩ hg]

/-- C8 witness at `max_retries = 1` and a concrete transport-closed error. -/
theorem C8_witness :
    handle_mcp_tool_call (fun _ => ToolOutcome.err ⟨true, "closed"⟩)
      (fun _ => Except.ok false) none "t" "c" 1 =
      ⟨some ⟨mkErrorMsg "t" ⟨true, "closed"⟩, "t", "c"⟩, 1, 1⟩ :=
  C8_reconnect_false_no_retry _ _ _ "t" "c" ⟨true, "closed"⟩ 1 (by norm_num) rfl rfl rfl

/-- C10: with `max_retries = 0` and a first invocation that raises
`ClosedResourceError`, the failure message carries the suffix
" (MCP connection issue. Attempted reconnection.)" even though
`reconnect()` was never called (`reconnectCalls = 0`): the message reports
a reconnection attempt that never happened. -/
theorem C10_suffix_without_reconnect (f : Nat → ToolOutcome) (g : Nat → Except Exc Bool)
    (hook : Option (Nat → Except Exc Unit)) (nm cid : String) (e : Exc)
    (hcre : e.isClosedResourceError = true) (h0 : f 0 = .err e) :
    handle_mcp_tool_call f g hook nm cid 0 =
      ⟨some ⟨"[ERROR] Tool '" ++ nm ++ "' failed: " ++ e.msg ++
        " (MCP connection issue. Attempted reconnection.)", nm, cid⟩, 1, 0⟩ := by
  rw [handle_mcp_tool_call, show ((0 : Int) + 1).toNat = 0 + 1 from rfl,
    runAttempts_err_final f g hook nm cid 0 0 0 0 0 e h0 (by simp), mkErrorMsg, if_pos hcre]

/-- C10 witness at a concrete transport-closed error. -/
theorem C10_witness :
    handle_mcp_tool_call (fun _ => ToolOutcome.err ⟨true, "boom"⟩)
      (fun _ => Except.ok true) none "t" "c1" 0 =
      ⟨some ⟨"[ERROR] Tool '" ++ "t" ++ "' failed: " ++ "boom" ++
        " (MCP connection issue. Attempted reconnection.)", "t", "c1"⟩, 1, 0⟩ :=
  C10_suffix_without_reconnect _ _ _ "t" "c1" ⟨true, "boom"⟩ rfl rfl

/-- C6, as stated, is false at a negative `max_retries`: the Python loop
`for attempt in range(max_retries + 1)` runs zero iterations and the
function returns `None`, not a `ToolMessage`. -/
theorem C6_counterexample :
    (handle_mcp_tool_call (fun _ => ToolOutcome.err ⟨false, "boom"⟩)
      (fun _ => Except.ok true) none "t" "c1" (-1)).result = none := rfl

/-- C6 (amended to nonnegative `max_retries`): for every tool behaviour,
every reconnect-environment behaviour (returning true or false, or itself
raising), every optional hook behaviour and every `max_retries ≥ 0`,
`handle_mcp_tool_call` returns a `ToolMessage` (`result` is `some`); no
raw exception propagates — the return type of the embedding is total. -/
theorem C6_always_returns_message (f : Nat → ToolOutcome) (g : Nat → Except Exc Bool)
    (hook : Option (Nat → Except Exc Unit)) (nm cid : String) (mr : Int)
    (hmr : 0 ≤ mr) :
    ((handle_mcp_tool_call f g hook nm cid mr).result).isSome = true := by
  rw [handle_mcp_tool_call]
  have key : ∀ (fuel attempt invocs recons : Nat), (attempt : Int) + fuel = mr + 1 →
      1 ≤ fuel →
      ((runAttempts f g hook nm cid mr attempt invocs recons fuel).result).isSome = true := by
    intro fuel
    induction fuel with
    | zero => intro attempt i rc _ h2; omega
    | succ n ih =>
      intro attempt i rc h1 _
      cases hf : f attempt with
      | ok res => rw [runAttempts_ok f g hook nm cid mr attempt i rc n res hf]; rfl
      | err e =>
        by_cases hc : e.isClosedResourceError = true ∧ (attempt : Int) < mr
        · cases hg : g rc with
          | error ex =>
            rw [runAttempts_err_reconnect_throws f g hook nm cid mr attempt i rc n e ex hf hc hg]
            rfl
          | ok b =>
            cases b with
            | false =>
              rw [runAttempts_err_reconnect_false f g hook nm cid mr attempt i rc n e hf hc hg]
              rfl
            | true =>
              have hstep : ((attempt + 1 : Nat) : Int) + (n : Int) = mr + 1 := by
                push_cast at h1 ⊢; omega
              have hfuel : 1 ≤ n := by
                have := hc.2; push_cast at h1; omega
              cases hook with
              | none =>
                rw [runAttempts_err_retry f g nm cid mr attempt i rc n e hf hc hg]
                exact ih (attempt + 1) (i + 1) (rc + 1) hstep hfuel
              | some hk =>
                cases hhk : hk rc with
                | ok u =>
                  rw [runAttempts_err_retry_hook f g hk nm cid mr attempt i rc n e u hf hc hg hhk]
                  exact ih (attempt + 1) (i + 1) (rc + 1) hstep hfuel
                | error ex =>
                  rw [runAttempts_err_hook_throws f g hk nm cid mr attempt i rc n e ex hf hc hg hhk]
                  rfl
        · rw [runAttempts_err_final f g hook nm cid mr attempt i rc n e hf hc]; rfl
  exact key (mr + 1).toNat 0 0 0 (by omega) (by omega)

/-- C6 witness at `max_retries = 1` and a tool that keeps failing with a
transport-closed error while reconnect keeps succeeding. -/
theorem C6_witness :
    ((handle_mcp_tool_call (fun _ => ToolOutcome.err ⟨true, "closed"⟩)
      (fun _ => Except.ok true) none "t" "c1" 1).result).isSome = true :=
  C6_always_returns_message _ _ _ "t" "c1" 1 (by norm_num)

/-- Every message the attempt loop returns is either the success echo of
some invocation outcome or the failure message `mkErrorMsg` built from the
exception of some invocation outcome. -/
theorem runAttempts_result_shape (f : Nat → ToolOutcome) (g : Nat → Except Exc Bool)
    (hook : Option (Nat → Except Exc Unit)) (nm cid : String) (mr : Int) :
    ∀ (fuel attempt invocs recons : Nat) (tm : ToolMessage),
      (runAttempts f g hook nm cid mr attempt invocs recons fuel).result = some tm →
      (∃ k res, f k = ToolOutcome.ok res ∧ tm = ⟨res, nm, cid⟩) ∨
      (∃ k e, f k = ToolOutcome.err e ∧ tm = ⟨mkErrorMsg nm e, nm, cid⟩) := by
  intro fuel
  induction fuel with
  | zero =>
    intro a i rc tm h
    rw [runAttempts] at h
    exact absurd h (by simp)
  | succ n ih =>
    intro a i rc tm h
    cases hf : f a with
    | ok res =>
      rw [runAttempts_ok f g hook nm cid mr a i rc n res hf] at h
      exact Or.inl ⟨a, res, hf, (Option.some_inj.mp h).symm⟩
    | err e =>
      by_cases hc : e.isClosedResourceError = true ∧ (a : Int) < mr
      · cases hg : g rc with
        | error ex =>
          rw [runAttempts_err_reconnect_throws f g hook nm cid mr a i rc n e ex hf hc hg] at h
          exact Or.inr ⟨a, e, hf, (Option.some_inj.mp h).symm⟩
        | ok b =>
          cases b with
          | false =>
            rw [runAttempts_err_reconnect_false f g hook nm cid mr a i rc n e hf hc hg] at h
            exact Or.inr ⟨a, e, hf, (Option.some_inj.mp h).symm⟩
          | true =>
            cases hook with
            | none =>
              rw [runAttempts_err_retry f g nm cid mr a i rc n e hf hc hg] at h
              exact ih (a + 1) (i + 1) (rc + 1) tm h
            | some hk =>
              cases hhk : hk rc with
              | ok u =>
                rw [runAttempts_err_retry_hook f g hk nm cid mr a i rc n e u hf hc hg hhk] at h
                exact ih (a + 1) (i + 1) (rc + 1) tm h
              | error ex =>
                rw [runAttempts_err_hook_throws f g hk nm cid mr a i rc n e ex hf hc hg hhk] at h
                exact Or.inr ⟨a, e, hf, (Option.some_inj.mp h).symm⟩
      · rw [runAttempts_err_final f g hook nm cid mr a i rc n e hf hc] at h
        exact Or.inr ⟨a, e, hf, (Option.some_inj.mp h).symm⟩

/-- C9, as stated, is false: the failure text produced by the code carries a
literal "[ERROR] " prefix before "Tool ...", so it is not the bare string
"Tool '<tool_name>' failed: <error>". -/
theorem C9_counterexample :
    (handle_mcp_tool_call (fun _ => ToolOutcome.err ⟨false, "boom"⟩)
        (fun _ => Except.ok true) none "t" "c1" 0).result =
      some ⟨"[ERROR] Tool 't' failed: boom", "t", "c1"⟩ ∧
    "[ERROR] Tool 't' failed: boom" ≠ "Tool 't' failed: boom" := by
  exact ⟨rfl, by decide⟩

/-- C9 (amended with the "[ERROR] " prefix): every `ToolMessage` the
dispatcher returns is either the success echo of an invocation result, or
the failure text "[ERROR] Tool '<tool_name>' failed: <error>" built from
the raised error, with transport-closed failures annotated distinctly by
the appended reconnection note. -/
theorem C9_failure_message_format (f : Nat → ToolOutcome) (g : Nat → Except Exc Bool)
    (hook : Option (Nat → Except Exc Unit)) (nm cid : String) (mr : Int)
    (tm : ToolMessage)
    (h : (handle_mcp_tool_call f g hook nm cid mr).result = some tm) :
    (∃ k res, f k = ToolOutcome.ok res ∧ tm = ⟨res, nm, cid⟩) ∨
    (∃ k e, f k = ToolOutcome.err e ∧
      tm.content = "[ERROR] Tool '" ++ nm ++ "' failed: " ++ e.msg ++
        (if e.isClosedResourceError then " (MCP connection issue. Attempted reconnection.)"
         else "")) := by
  rw [handle_mcp_tool_call] at h
  rcases runAttempts_result_shape f g hook nm cid mr _ _ _ _ tm h with h1 | ⟨k, e, hk, htm⟩
  · exact Or.inl h1
  · exact Or.inr ⟨k, e, hk, by rw [htm]; rfl⟩

/-- C9 witness at a concrete failing tool and `max_retries = 0`. -/
theorem C9_witness :
    (∃ (k : Nat) (res : String),
      (fun _ : Nat => ToolOutcome.err (⟨true, "b"⟩ : Exc)) k = ToolOutcome.ok res ∧
      (⟨"[ERROR] Tool 't' failed: b (MCP connection issue. Attempted reconnection.)",
        "t", "c"⟩ : ToolMessage) = ⟨res, "t", "c"⟩) ∨
    (∃ (k : Nat) (e : Exc),
      (fun _ : Nat => ToolOutcome.err (⟨true, "b"⟩ : Exc)) k = ToolOutcome.err e ∧
      (⟨"[ERROR] Tool 't' failed: b (MCP connection issue. Attempted reconnection.)",
        "t", "c"⟩ : ToolMessage).content =
        "[ERROR] Tool '" ++ "t" ++ "' failed: " ++ e.msg ++
          (if e.isClosedResourceError then " (MCP connection issue. Attempted reconnection.)"
           else "")) :=
  C9_failure_message_format (fun _ : Nat => ToolOutcome.err ⟨true, "b"⟩)
    (fun _ => Except.ok true) none "t" "c" 0
    ⟨"[ERROR] Tool 't' failed: b (MCP connection issue. Attempted reconnection.)", "t", "c"⟩
    rfl

/-! ## Theorems about the session manager -/

/-- The sessions list built by the connection loop gains exactly one entry
per non-failed endpoint. -/
theorem connectLoop_sessions_length (outs : List EndpointOutcome) :
    ∀ (tools : List Tool) (sessions stack : List Session),
      ((connectLoop outs tools sessions stack).2.1).length =
        sessions.length + outs.countP (fun o => !o.failed) := by
  induction outs with
  | nil => intro t s k; simp [connectLoop]
  | cons o rest ih =>
    intro t s k
    cases o with
    | connectFail e =>
      simp [connectLoop, ih, EndpointOutcome.failed, List.countP_cons]
    | loadFail s0 e =>
      simp [connectLoop, ih, EndpointOutcome.failed, List.countP_cons]
    | ok s0 ts =>
      simp [connectLoop, ih, EndpointOutcome.failed, List.countP_cons]
      omega

/-- Failed and non-failed endpoints partition the endpoint list. -/
theorem countP_failed_partition (outs : List EndpointOutcome) :
    outs.countP (fun o => o.failed) + outs.countP (fun o => !o.failed) = outs.length := by
  induction outs with
  | nil => simp
  | cons o rest ih =>
    cases hf : o.failed <;> simp [List.countP_cons, hf] <;> omega

/-- C2: starting uninitialized, for every endpoint list in which exactly
one endpoint fails (to connect or to load its tools) and the rest succeed,
`initialize()` completes without raising, returning a `Resource` whose
sessions list has one entry per surviving endpoint:
`len(sessions) = len(endpoints) - 1`. -/
theorem C2_partial_init (outs : List EndpointOutcome)
    (h1 : outs.countP (fun o => o.failed) = 1) :
    ∃ r, (mgrInit initialState (Except.ok ()) outs).result = Except.ok (some r) ∧
      r.sessions.length = outs.length - 1 := by
  rcases hcl : connectLoop outs [] [] [] with ⟨t, s, k⟩
  refine ⟨⟨t, s⟩, ?_, ?_⟩
  · simp [mgrInit, initialState, hcl]
  · have hlen := connectLoop_sessions_length outs [] [] []
    rw [hcl] at hlen
    have hpart := countP_failed_partition outs
    simp at hlen
    show s.length = outs.length - 1
    omega

/-- C2 witness: three endpoints of which the middle one fails to connect;
two sessions survive. -/
theorem C2_witness :
    ([EndpointOutcome.ok "s1" ["t1"], EndpointOutcome.connectFail ⟨false, "down"⟩,
        EndpointOutcome.ok "s2" []].countP (fun o => o.failed) = 1) ∧
    ∃ r, (mgrInit initialState (Except.ok ())
        [EndpointOutcome.ok "s1" ["t1"], EndpointOutcome.connectFail ⟨false, "down"⟩,
          EndpointOutcome.ok "s2" []]).result = Except.ok (some r) ∧
      r.sessions.length =
        [EndpointOutcome.ok "s1" ["t1"], EndpointOutcome.connectFail ⟨false, "down"⟩,
          EndpointOutcome.ok "s2" []].length - 1 :=
  ⟨by decide, C2_partial_init _ (by decide)⟩

/-- After `cleanup`, every field of a well-formed manager state is reset. -/
theorem mgrCleanup_fields (st : ManagerState) (ao : Except Exc Unit) (hwf : st.wf) :
    (mgrCleanup st ao).exit_stack = none ∧ (mgrCleanup st ao).resource = none ∧
      (mgrCleanup st ao).initialized = false := by
  obtain ⟨es, res, ini⟩ := st
  cases es with
  | none =>
    obtain ⟨h1, h2⟩ := hwf rfl
    exact ⟨rfl, h1, h2⟩
  | some l => cases ao <;> exact ⟨rfl, rfl, rfl⟩

/-- C5: after `cleanup()` the manager is reset to uninitialized — no held
exit stack, no cached `Resource`, `_initialized` false, and a subsequent
`get_resource()` raises — regardless of whether closing the held sessions
raised (`aexitOutcome` is arbitrary); `cleanup` itself is a total function,
so close failures are never re-raised. -/
theorem C5_cleanup_resets (st : ManagerState) (ao : Except Exc Unit) (hwf : st.wf) :
    (mgrCleanup st ao).exit_stack = none ∧ (mgrCleanup st ao).resource = none ∧
    (mgrCleanup st ao).initialized = false ∧
    get_resource (mgrCleanup st ao) = Except.error notInitializedMsg := by
  obtain ⟨h1, h2, h3⟩ := mgrCleanup_fields st ao hwf
  exact ⟨h1, h2, h3, by simp [get_resource, h3]⟩

/-- C5 witness: an initialized manager holding one session, whose exit
stack close raises; cleanup still resets everything. -/
theorem C5_witness :
    (⟨some ["s1"], some ⟨["t1"], ["s1"]⟩, true⟩ : ManagerState).wf ∧
    ((mgrCleanup ⟨some ["s1"], some ⟨["t1"], ["s1"]⟩, true⟩
        (Except.error ⟨false, "close failed"⟩)).exit_stack = none ∧
      (mgrCleanup ⟨some ["s1"], some ⟨["t1"], ["s1"]⟩, true⟩
        (Except.error ⟨false, "close failed"⟩)).resource = none ∧
      (mgrCleanup ⟨some ["s1"], some ⟨["t1"], ["s1"]⟩, true⟩
        (Except.error ⟨false, "close failed"⟩)).initialized = false ∧
      get_resource (mgrCleanup ⟨some ["s1"], some ⟨["t1"], ["s1"]⟩, true⟩
        (Except.error ⟨false, "close failed"⟩)) = Except.error notInitializedMsg) :=
  ⟨by decide, C5_cleanup_resets _ _ (by decide)⟩

/-- C3: `reconnect()` is a total function (never propagates an exception);
its boolean return equals whether re-initialization completed (an exception
during re-initialization is converted to `false`), and afterwards
`get_resource()` succeeds when it returned true and raises the
not-initialized error when it returned false — never a half-initialized
state. -/
theorem C3_reconnect_dichotomy (st : ManagerState) (ao eo : Except Exc Unit)
    (outs : List EndpointOutcome) (hwf : st.wf) :
    (mgrReconnect st ao eo outs).2 = excOk eo ∧
    (((mgrReconnect st ao eo outs).2 = true ∧
        ∃ r, get_resource (mgrReconnect st ao eo outs).1 = Except.ok r) ∨
      ((mgrReconnect st ao eo outs).2 = false ∧
        get_resource (mgrReconnect st ao eo outs).1 = Except.error notInitializedMsg)) := by
  obtain ⟨h1, h2, h3⟩ := mgrCleanup_fields st ao hwf
  cases eo with
  | error e =>
    have hpair : mgrReconnect st ao (Except.error e) outs =
        ({ mgrCleanup st ao with exit_stack := some [] }, false) := by
      simp [mgrReconnect, mgrInit, h3]
    rw [hpair]
    refine ⟨rfl, Or.inr ⟨rfl, ?_⟩⟩
    simp [get_resource, h3]
  | ok u =>
    rcases hcl : connectLoop outs [] [] [] with ⟨t, s, k⟩
    have hpair : mgrReconnect st ao (Except.ok u) outs =
        (⟨some k, some ⟨t, s⟩, true⟩, true) := by
      simp [mgrReconnect, mgrInit, h3, hcl]
    rw [hpair]
    exact ⟨rfl, Or.inl ⟨rfl, ⟨⟨t, s⟩, by simp [get_resource]⟩⟩⟩

/-- C3 witness: a fresh manager, a clean close, a successful re-initialize
over one endpoint. -/
theorem C3_witness :
    ManagerState.wf initialState ∧
    ((mgrReconnect initialState (Except.ok ()) (Except.ok ())
        [EndpointOutcome.ok "s1" ["t1"]]).2 = excOk (Except.ok ()) ∧
      (((mgrReconnect initialState (Except.ok ()) (Except.ok ())
            [EndpointOutcome.ok "s1" ["t1"]]).2 = true ∧
          ∃ r, get_resource (mgrReconnect initialState (Except.ok ()) (Except.ok ())
            [EndpointOutcome.ok "s1" ["t1"]]).1 = Except.ok r) ∨
        ((mgrReconnect initialState (Except.ok ()) (Except.ok ())
            [EndpointOutcome.ok "s1" ["t1"]]).2 = false ∧
          get_resource (mgrReconnect initialState (Except.ok ()) (Except.ok ())
            [EndpointOutcome.ok "s1" ["t1"]]).1 = Except.error notInitializedMsg))) :=
  ⟨by decide, C3_reconnect_dichotomy _ _ _ _ (by decide)⟩

/-- C4: when a first `initialize()` call returns a `Resource`, a second
`initialize()` call on the resulting state — with any environment — returns
the identical cached `Resource`, leaves the state unchanged, and performs
zero endpoint connection attempts. -/
theorem C4_init_idempotent (st : ManagerState) (eo : Except Exc Unit)
    (outs : List EndpointOutcome) (eo2 : Except Exc Unit) (outs2 : List EndpointOutcome)
    (r : Resource) (h : (mgrInit st eo outs).result = Except.ok (some r)) :
    mgrInit (mgrInit st eo outs).state eo2 outs2 =
      ⟨(mgrInit st eo outs).state, Except.ok (some r), 0⟩ := by
  by_cases hi : st.initialized = true
  · have hstate : (mgrInit st eo outs).state = st := by simp [mgrInit, hi]
    have hres : st.resource = some r := by
      have h' := h
      simp [mgrInit, hi] at h'
      exact h'
    rw [hstate]
    simp [mgrInit, hi, hres]
  · have hi' : st.initialized = false := by simpa using hi
    cases eo with
    | error e => simp [mgrInit, hi'] at h
    | ok u =>
      rcases hcl : connectLoop outs [] [] [] with ⟨t, s, k⟩
      have hr : (⟨t, s⟩ : Resource) = r := by
        have h' := h
        simp [mgrInit, hi', hcl] at h'
        exact h'
      have hstate : (mgrInit st (Except.ok u) outs).state = ⟨some k, some ⟨t, s⟩, true⟩ := by
        simp [mgrInit, hi', hcl]
      rw [hstate]
      simp [mgrInit, hr]

/-- C4 witness: one endpoint connects on the first call; the second call
returns the identical cached `Resource` with zero connection attempts. -/
theorem C4_witness :
    ((mgrInit initialState (Except.ok ()) [EndpointOutcome.ok "s1" ["t1"]]).result =
      Except.ok (some ⟨["t1"], ["s1"]⟩)) ∧
    mgrInit (mgrInit initialState (Except.ok ()) [EndpointOutcome.ok "s1" ["t1"]]).state
        (Except.ok ()) [] =
      ⟨(mgrInit initialState (Except.ok ()) [EndpointOutcome.ok "s1" ["t1"]]).state,
        Except.ok (some ⟨["t1"], ["s1"]⟩), 0⟩ :=
  ⟨rfl, C4_init_idempotent _ _ _ _ _ _ rfl⟩

end MCPSpec
